import Mathlib

/-!
Shallow embedding of the dynamic-schema submission pipeline of the
`vialAssessmentBackend` repository.

The embedded code is the Fastify route handlers in
`src/routes/source_record.ts` and `src/routes/form.ts`, over the Prisma
data model: a `Form` stores a JSON mapping from field id to
`{ type, question, required? }`, a `SourceRecord` stores denormalized
`{ question, answer }` rows (`sourceData`).

Modelling decisions, each traceable to the source:
* JSON objects (the form's `fields` mapping and the request's `sourceData`
  map) are insertion-ordered association lists `List (String × _)`;
  `Object.entries` enumerates them in that order.
* `body.sourceData[fieldId]` being falsy (`!body.sourceData[fieldId]`)
  means: the key is absent (`undefined`) or the value is the empty string.
* `formFields[fieldId].question` on a `fieldId` absent from the mapping
  throws a `TypeError` in JavaScript; the embedding returns `none` and the
  handler's catch block maps it to the generic `ApiError`.
* `prisma.form.findUniqueOrThrow` on an unknown id throws Prisma's
  not-found error; the catch block (`err instanceof ApiError` is false)
  maps it to the generic `ApiError('failed to create source record', 400)`.
  The pre-catch pipeline is `createSourceRecordCore` (errors classified as
  in the spec's taxonomy); the caller-visible result after the catch block
  is `createSourceRecord`.
* The database is a pair of lists (forms, source records); a Prisma
  `create` with nested `sourceData.create` appends one record atomically.
-/

/-- A field definition inside a form's `fields` JSON mapping:
`{ type: string, question: string, required?: boolean }`.
An absent `required` is falsy in the handler's check, so it is modelled
as `required = false`. -/
structure FieldDef where
  type : String
  question : String
  required : Bool
deriving DecidableEq, Repr, Inhabited

/-- The form's `fields` mapping, in insertion (enumeration) order. -/
abbrev FormFields := List (String × FieldDef)

/-- A row of the `form` table: `{ id, name, fields }`. -/
structure Form where
  id : String
  name : String
  fields : FormFields
deriving DecidableEq, Repr

/-- A row of the `sourceData` table: `{ question, answer }`. -/
structure SourceData where
  question : String
  answer : String
deriving DecidableEq, Repr

/-- A row of the `sourceRecord` table together with its included
`sourceData` rows, in creation order. -/
structure SourceRecord where
  id : String
  formId : String
  sourceData : List SourceData
deriving DecidableEq, Repr

/-- The persistent store: the `form` and `sourceRecord` tables. -/
structure DB where
  forms : List Form
  sourceRecords : List SourceRecord
deriving DecidableEq, Repr

/-- The POST /source-records request body (`SourceRecordInput` in
`schemas/common.ts`): a form id and a string-to-string answer map,
kept in payload key order. -/
structure SourceRecordInput where
  formId : String
  sourceData : List (String × String)
deriving DecidableEq, Repr

/-- `ApiError` from `src/errors.ts`: a message and an HTTP status code. -/
structure ApiError where
  message : String
  statusCode : Nat
deriving DecidableEq, Repr

/-- JavaScript object indexing `m[k]` on an association list:
the value at the first matching key, if any. -/
def lookupEntry {α : Type} (m : List (String × α)) (k : String) : Option α :=
  (m.find? (fun p => p.1 == k)).map (fun p => p.2)

/-- `prisma.form.findUniqueOrThrow({ where: { id } })`, as an `Option`. -/
def findForm (db : DB) (id : String) : Option Form :=
  db.forms.find? (fun f => f.id == id)

/-- The handler's required-field test `!body.sourceData[fieldId]`:
true exactly when the key is absent or the value is `""`. -/
def missingOrEmpty (a : List (String × String)) (fieldId : String) : Bool :=
  match lookupEntry a fieldId with
  | none => true
  | some s => s == ""

/-- The validation loop of the POST handler (source_record.ts:284-288):
iterate `Object.entries(formFields)` in order and throw
`ApiError('Missing required field: ' + field.question, 400)` at the first
required field whose answer is missing or empty. Returns the question of
that first field, or `none` when the loop completes. -/
def validateRequired (formFields : FormFields) (a : List (String × String)) : Option String :=
  match formFields with
  | [] => none
  | p :: rest =>
    if p.2.required && missingOrEmpty a p.1 then some p.2.question
    else validateRequired rest a

/-- `Object.entries(body.sourceData).map(([fieldId, answer]) =>
({ question: formFields[fieldId].question, answer }))`
(source_record.ts:295-300). In payload order; `none` models the
`TypeError` thrown when some `fieldId` is absent from `formFields`. -/
def buildSourceData (formFields : FormFields) : List (String × String) → Option (List SourceData)
  | [] => some []
  | p :: rest =>
    match lookupEntry formFields p.1 with
    | none => none
    | some field =>
      match buildSourceData formFields rest with
      | none => none
      | some rows => some (⟨field.question, p.2⟩ :: rows)

/-- Error classification of the POST /source-records try block, before the
catch block maps it to a caller-visible `ApiError`: the form lookup throws
not-found, the validation loop throws a validation `ApiError` carrying the
field's question, and the unresolved-field `TypeError` is its own case. -/
inductive CreateErr where
  | notFound
  | validation (question : String)
  | unresolvedField
deriving DecidableEq, Repr

/-- The try block of the POST /source-records handler
(source_record.ts:273-308): resolve the form, run the required-field
loop, build the `sourceData` rows, then create the record (with its rows,
atomically) and append it to the store. On any error the store is
unchanged. -/
def createSourceRecordCore (db : DB) (newId : String) (body : SourceRecordInput) :
    Except CreateErr SourceRecord × DB :=
  match findForm db body.formId with
  | none => (Except.error CreateErr.notFound, db)
  | some form =>
    match validateRequired form.fields body.sourceData with
    | some question => (Except.error (CreateErr.validation question), db)
    | none =>
      match buildSourceData form.fields body.sourceData with
      | none => (Except.error CreateErr.unresolvedField, db)
      | some rows =>
        let record : SourceRecord := ⟨newId, body.formId, rows⟩
        (Except.ok record, ⟨db.forms, db.sourceRecords ++ [record]⟩)

/-- The catch block (source_record.ts:309-315): an `ApiError` (the
validation error) is rethrown as is; everything else (Prisma not-found,
the unresolved-field `TypeError`) becomes
`ApiError('failed to create source record', 400)`. -/
def toApiError : CreateErr → ApiError
  | CreateErr.validation question => ⟨"Missing required field: " ++ question, 400⟩
  | CreateErr.notFound => ⟨"failed to create source record", 400⟩
  | CreateErr.unresolvedField => ⟨"failed to create source record", 400⟩

/-- The caller-visible POST /source-records operation: the try block with
its catch block applied. -/
def createSourceRecord (db : DB) (newId : String) (body : SourceRecordInput) :
    Except ApiError SourceRecord × DB :=
  ((createSourceRecordCore db newId body).1.mapError toApiError,
   (createSourceRecordCore db newId body).2)

/-- GET /source-records/:id (source_record.ts:84-100):
`findUniqueOrThrow` with included `sourceData`; on failure the catch block
yields `ApiError('failed to fetch source record', 400)`. -/
def getSourceRecordById (db : DB) (id : String) : Except ApiError SourceRecord :=
  match db.sourceRecords.find? (fun r => r.id == id) with
  | some record => Except.ok record
  | none => Except.error ⟨"failed to fetch source record", 400⟩

/-- GET /source-records?formId= (source_record.ts:177-192):
`findMany({ where: { formId } })` with included `sourceData`. `findMany`
does not fail on an unknown form id; it returns the (possibly empty) list
of matching records. -/
def getSourceRecordsByFormId (db : DB) (formId : String) :
    Except ApiError (List SourceRecord) :=
  Except.ok (db.sourceRecords.filter (fun r => r.formId == formId))

/-- PUT /forms/:id (form.ts:305-328): `prisma.form.update` replaces the
form's `name` and `fields` wholesale; on an unknown id it throws and the
catch block yields `ApiError('failed to update form', 400)`. Source
records are untouched either way. -/
def updateForm (db : DB) (id : String) (name : String) (fields : FormFields) :
    Except ApiError Form × DB :=
  match findForm db id with
  | none => (Except.error ⟨"failed to update form", 400⟩, db)
  | some _ =>
    (Except.ok ⟨id, name, fields⟩,
     ⟨db.forms.map (fun f => if f.id == id then ⟨id, name, fields⟩ else f),
      db.sourceRecords⟩)

/-- The question text the handler reads for an answered field id
(`formFields[fieldId].question`), defaulting to `""` where the JavaScript
code would instead throw (that case is excluded wherever this is used). -/
def questionOf (formFields : FormFields) (fieldId : String) : String :=
  match lookupEntry formFields fieldId with
  | some field => field.question
  | none => ""

/-- The number of keys of the answer map that exist in the form's field
mapping. -/
def countResolvable (formFields : FormFields) (a : List (String × String)) : Nat :=
  (a.filter (fun p => (lookupEntry formFields p.1).isSome)).length

/-! Helper lemmas about the validation loop and the row builder. -/

/-- The fail-fast validation loop returns the question of the *first*
field (in mapping order) that is required and unanswered. -/
theorem validateRequired_eq_find (formFields : FormFields) (a : List (String × String)) :
    validateRequired formFields a =
      (formFields.find? (fun p => p.2.required && missingOrEmpty a p.1)).map
        (fun p => p.2.question) := by
  induction formFields with
  | nil => rfl
  | cons p rest ih =>
    by_cases h : (p.2.required && missingOrEmpty a p.1) = true
    · simp only [validateRequired, if_pos h]
      rw [@List.find?_cons_of_pos _ (fun q => q.2.required && missingOrEmpty a q.1) p rest h]
      rfl
    · simp only [validateRequired, if_neg h]
      rw [@List.find?_cons_of_neg _ (fun q => q.2.required && missingOrEmpty a q.1) p rest h, ih]

/-- When every answered field id resolves in the form's mapping, the
built rows are exactly the answer map in payload order, each entry paired
with its field's question. -/
theorem buildSourceData_eq_map (formFields : FormFields) :
    ∀ a : List (String × String),
      (∀ p ∈ a, (lookupEntry formFields p.1).isSome) →
      buildSourceData formFields a =
        some (a.map (fun p => ⟨questionOf formFields p.1, p.2⟩)) := by
  intro a
  induction a with
  | nil => intro _; rfl
  | cons hd tl ih =>
    intro h
    have h1 : (lookupEntry formFields hd.1).isSome := h hd (List.mem_cons_self hd tl)
    cases hl : lookupEntry formFields hd.1 with
    | none => rw [hl] at h1; simp at h1
    | some field =>
      have htl := ih (fun p hp => h p (List.mem_cons_of_mem hd hp))
      simp only [buildSourceData, hl, htl, List.map_cons, questionOf]

/-- When some answered field id does not resolve, the row builder throws
(returns `none`). -/
theorem buildSourceData_eq_none (formFields : FormFields) :
    ∀ a : List (String × String),
      (∃ p ∈ a, lookupEntry formFields p.1 = none) →
      buildSourceData formFields a = none := by
  intro a
  induction a with
  | nil => intro h; obtain ⟨p, hp, _⟩ := h; exact absurd hp (List.not_mem_nil p)
  | cons hd tl ih =>
    intro h
    obtain ⟨p, hp, hnone⟩ := h
    cases List.mem_cons.mp hp with
    | inl heq =>
      subst heq
      simp only [buildSourceData, hnone]
    | inr htl =>
      cases hl : lookupEntry formFields hd.1 with
      | none => simp only [buildSourceData, hl]
      | some field =>
        have := ih ⟨p, htl, hnone⟩
        simp only [buildSourceData, hl, this]

/-- When every required field of the mapping has a present, non-empty
answer, the fail-fast loop completes without error. -/
theorem validateRequired_eq_none_of_forall
    (formFields : FormFields) (a : List (String × String))
    (hreq : ∀ p ∈ formFields, p.2.required = true → missingOrEmpty a p.1 = false) :
    validateRequired formFields a = none := by
  rw [validateRequired_eq_find]
  have hfind : formFields.find? (fun p => p.2.required && missingOrEmpty a p.1) = none := by
    rw [List.find?_eq_none]
    intro x hx
    simp only [Bool.and_eq_true, not_and]
    intro hr hm
    rw [hreq x hx hr] at hm
    exact Bool.false_ne_true hm
  rw [hfind]
  rfl

/-- Claim C1 — if some required field of the form has a missing or
empty-string entry in the submitted answer map, the POST /source-records
operation fails with the `ApiError` message
`Missing required field: {question}` for the *first* such field in the
mapping's insertion order (a single error — the loop stops there), and
the store is unchanged. -/
theorem create_fails_with_first_missing_required_field
    (db : DB) (newId : String) (body : SourceRecordInput) (form : Form)
    (failing : String × FieldDef)
    (hform : findForm db body.formId = some form)
    (hfirst : form.fields.find? (fun p => p.2.required && missingOrEmpty body.sourceData p.1)
        = some failing) :
    createSourceRecord db newId body =
      (Except.error ⟨"Missing required field: " ++ failing.2.question, 400⟩, db) := by
  have hv : validateRequired form.fields body.sourceData = some failing.2.question := by
    rw [validateRequired_eq_find, hfirst]
    rfl
  simp [createSourceRecord, createSourceRecordCore, hform, hv, Except.mapError, toApiError]

/-- Witness for C1: a form whose single field `f1` ("Name?") is required,
and a submission with an empty answer map. -/
theorem create_fails_with_first_missing_required_field_witness :
    createSourceRecord ⟨[⟨"F", "Test Form", [("f1", ⟨"text", "Name?", true⟩)]⟩], []⟩
        "r1" ⟨"F", []⟩
      = (Except.error ⟨"Missing required field: " ++ "Name?", 400⟩,
         ⟨[⟨"F", "Test Form", [("f1", ⟨"text", "Name?", true⟩)]⟩], []⟩) :=
  create_fails_with_first_missing_required_field
    ⟨[⟨"F", "Test Form", [("f1", ⟨"text", "Name?", true⟩)]⟩], []⟩ "r1" ⟨"F", []⟩
    ⟨"F", "Test Form", [("f1", ⟨"text", "Name?", true⟩)]⟩
    ("f1", ⟨"text", "Name?", true⟩) (by decide) (by decide)

/-- Claim C6 — the POST /source-records try block resolves the form
first: when no form with the submitted id exists, it fails with the
not-found error before any validation or write, and the store is
unchanged (the catch block then surfaces this as the generic
`failed to create source record` 400). -/
theorem create_notFound_on_unknown_form
    (db : DB) (newId : String) (body : SourceRecordInput)
    (hform : findForm db body.formId = none) :
    createSourceRecordCore db newId body = (Except.error CreateErr.notFound, db) := by
  simp [createSourceRecordCore, hform]

/-- Witness for C6: an empty store and an arbitrary submission body. -/
theorem create_notFound_on_unknown_form_witness :
    createSourceRecordCore ⟨[], []⟩ "r1" ⟨"F", [("x", "y")]⟩
      = (Except.error CreateErr.notFound, ⟨[], []⟩) :=
  create_notFound_on_unknown_form ⟨[], []⟩ "r1" ⟨"F", [("x", "y")]⟩ (by decide)

/-- Claim C7 — whenever required-field validation fails, the POST
operation returns the validation error and the store is exactly the store
before the call: no source record and no `sourceData` rows are created. -/
theorem create_validation_failure_leaves_db_unchanged
    (db : DB) (newId : String) (body : SourceRecordInput) (form : Form) (q : String)
    (hform : findForm db body.formId = some form)
    (hv : validateRequired form.fields body.sourceData = some q) :
    (createSourceRecord db newId body).1
        = Except.error ⟨"Missing required field: " ++ q, 400⟩ ∧
    (createSourceRecord db newId body).2 = db := by
  constructor <;>
    simp [createSourceRecord, createSourceRecordCore, hform, hv, Except.mapError, toApiError]

/-- Witness for C7: the failed submission of the C1 scenario leaves the
one-form, zero-record store unchanged. -/
theorem create_validation_failure_leaves_db_unchanged_witness :
    (createSourceRecord ⟨[⟨"F", "Test Form", [("f1", ⟨"text", "Name?", true⟩)]⟩], []⟩
        "r1" ⟨"F", []⟩).1
        = Except.error ⟨"Missing required field: " ++ "Name?", 400⟩ ∧
    (createSourceRecord ⟨[⟨"F", "Test Form", [("f1", ⟨"text", "Name?", true⟩)]⟩], []⟩
        "r1" ⟨"F", []⟩).2
        = ⟨[⟨"F", "Test Form", [("f1", ⟨"text", "Name?", true⟩)]⟩], []⟩ :=
  create_validation_failure_leaves_db_unchanged
    ⟨[⟨"F", "Test Form", [("f1", ⟨"text", "Name?", true⟩)]⟩], []⟩ "r1" ⟨"F", []⟩
    ⟨"F", "Test Form", [("f1", ⟨"text", "Name?", true⟩)]⟩ "Name?" (by decide) (by decide)

/-- Claim C2 — PUT /forms/:id rewrites only the `form` row (and leaves
everything untouched when the id is unknown); the `sourceRecord` table is
identical before and after, so GET /source-records/:id returns the same
result for every record id before and after the update. -/
theorem updateForm_preserves_sourceRecords
    (db : DB) (formId name rid : String) (fields : FormFields) :
    (updateForm db formId name fields).2.sourceRecords = db.sourceRecords ∧
    getSourceRecordById (updateForm db formId name fields).2 rid
      = getSourceRecordById db rid := by
  have h : (updateForm db formId name fields).2.sourceRecords = db.sourceRecords := by
    unfold updateForm
    cases findForm db formId <;> rfl
  refine ⟨h, ?_⟩
  unfold getSourceRecordById
  rw [h]

/-- Claim C3 — when the form resolves, required-field validation passes
and every answered field id exists in the form's mapping, the created
record's `sourceData` rows are exactly the answer map's entries in the
*payload's* key order, each paired with its field's question text. -/
theorem create_persists_payload_order
    (db : DB) (newId : String) (body : SourceRecordInput) (form : Form)
    (hform : findForm db body.formId = some form)
    (hv : validateRequired form.fields body.sourceData = none)
    (hk : ∀ p ∈ body.sourceData, (lookupEntry form.fields p.1).isSome) :
    createSourceRecord db newId body =
      (Except.ok ⟨newId, body.formId,
         body.sourceData.map (fun p => ⟨questionOf form.fields p.1, p.2⟩)⟩,
       ⟨db.forms, db.sourceRecords ++
         [⟨newId, body.formId,
           body.sourceData.map (fun p => ⟨questionOf form.fields p.1, p.2⟩)⟩]⟩) := by
  have hb := buildSourceData_eq_map form.fields body.sourceData hk
  simp [createSourceRecord, createSourceRecordCore, hform, hv, hb, Except.mapError]

/-- Witness for C3: the spec's round-trip example — f1 → "Name?",
f2 → "Age?", payload `{f1: "a", f2: "b"}` — persists
`[("Name?", "a"), ("Age?", "b")]` in payload order. -/
theorem create_persists_payload_order_witness :
    createSourceRecord
        ⟨[⟨"F", "T", [("f1", ⟨"text", "Name?", true⟩), ("f2", ⟨"text", "Age?", false⟩)]⟩], []⟩
        "r1" ⟨"F", [("f1", "a"), ("f2", "b")]⟩
      = (Except.ok ⟨"r1", "F", [⟨"Name?", "a"⟩, ⟨"Age?", "b"⟩]⟩,
         ⟨[⟨"F", "T", [("f1", ⟨"text", "Name?", true⟩), ("f2", ⟨"text", "Age?", false⟩)]⟩],
          [⟨"r1", "F", [⟨"Name?", "a"⟩, ⟨"Age?", "b"⟩]⟩]⟩) :=
  create_persists_payload_order
    ⟨[⟨"F", "T", [("f1", ⟨"text", "Name?", true⟩), ("f2", ⟨"text", "Age?", false⟩)]⟩], []⟩
    "r1" ⟨"F", [("f1", "a"), ("f2", "b")]⟩
    ⟨"F", "T", [("f1", ⟨"text", "Name?", true⟩), ("f2", ⟨"text", "Age?", false⟩)]⟩
    (by decide) (by decide) (by decide)

/-- Counterexample to C4 as stated: a form with an empty field mapping
and the payload `{x: "v"}`. Every required field is (vacuously) answered
and the required-field loop passes, yet no pair sequence is emitted at
all — the row builder throws on the unknown key `x` and the operation
fails with the generic error — whereas the claim asserts an emitted
sequence of length 0 (the number of keys of the payload that exist in the
mapping). -/
theorem create_pair_count_counterexample :
    validateRequired [] [("x", "v")] = none ∧
    buildSourceData [] [("x", "v")] = none ∧
    createSourceRecord ⟨[⟨"F", "T", []⟩], []⟩ "r1" ⟨"F", [("x", "v")]⟩
      = (Except.error ⟨"failed to create source record", 400⟩, ⟨[⟨"F", "T", []⟩], []⟩) := by
  exact ⟨rfl, rfl, rfl⟩

/-- Claim C4, amended — when every required field has a present,
non-empty answer **and every key of the answer map exists in the form's
field mapping**, validation succeeds and the emitted pair sequence's
length equals the number of keys of the answer map that exist in the
mapping (which is then all of them). -/
theorem create_emits_pairs_for_resolvable_keys
    (formFields : FormFields) (a : List (String × String))
    (hreq : ∀ p ∈ formFields, p.2.required = true → missingOrEmpty a p.1 = false)
    (hk : ∀ p ∈ a, (lookupEntry formFields p.1).isSome) :
    validateRequired formFields a = none ∧
    ∃ rows, buildSourceData formFields a = some rows ∧
      rows.length = countResolvable formFields a := by
  refine ⟨validateRequired_eq_none_of_forall formFields a hreq,
    a.map (fun p => ⟨questionOf formFields p.1, p.2⟩),
    buildSourceData_eq_map formFields a hk, ?_⟩
  have hfilter : a.filter (fun p => (lookupEntry formFields p.1).isSome) = a :=
    List.filter_eq_self.mpr hk
  simp [countResolvable, hfilter]

/-- Witness for the amended C4: one required, answered field. -/
theorem create_emits_pairs_for_resolvable_keys_witness :
    validateRequired [("f1", ⟨"text", "Name?", true⟩)] [("f1", "Jo")] = none ∧
    ∃ rows, buildSourceData [("f1", ⟨"text", "Name?", true⟩)] [("f1", "Jo")] = some rows ∧
      rows.length = countResolvable [("f1", ⟨"text", "Name?", true⟩)] [("f1", "Jo")] :=
  create_emits_pairs_for_resolvable_keys
    [("f1", ⟨"text", "Name?", true⟩)] [("f1", "Jo")] (by decide) (by decide)

/-- Claim C5 — when required-field validation passes but some answered
key is absent from the form's field mapping, the operation fails with the
generic `failed to create source record` 400 (the `TypeError` from the
unchecked lookup lands in the catch block), not with a descriptive
validation error naming the unknown field id. -/
theorem create_generic_failure_on_unknown_field
    (db : DB) (newId : String) (body : SourceRecordInput) (form : Form)
    (p : String × String)
    (hform : findForm db body.formId = some form)
    (hv : validateRequired form.fields body.sourceData = none)
    (hp : p ∈ body.sourceData)
    (hnone : lookupEntry form.fields p.1 = none) :
    createSourceRecord db newId body =
      (Except.error ⟨"failed to create source record", 400⟩, db) := by
  have hb := buildSourceData_eq_none form.fields body.sourceData ⟨p, hp, hnone⟩
  simp [createSourceRecord, createSourceRecordCore, hform, hv, hb, Except.mapError, toApiError]

/-- Witness for C5: a form with one optional field, and a payload
answering an unknown field id `zz`. -/
theorem create_generic_failure_on_unknown_field_witness :
    createSourceRecord ⟨[⟨"F", "T", [("f1", ⟨"text", "Name?", false⟩)]⟩], []⟩
        "r1" ⟨"F", [("zz", "v")]⟩
      = (Except.error ⟨"failed to create source record", 400⟩,
         ⟨[⟨"F", "T", [("f1", ⟨"text", "Name?", false⟩)]⟩], []⟩) :=
  create_generic_failure_on_unknown_field
    ⟨[⟨"F", "T", [("f1", ⟨"text", "Name?", false⟩)]⟩], []⟩ "r1" ⟨"F", [("zz", "v")]⟩
    ⟨"F", "T", [("f1", ⟨"text", "Name?", false⟩)]⟩ ("zz", "v")
    (by decide) (by decide) (by decide) (by decide)

/-- Claim C8 — GET /source-records?formId= returns exactly the records
whose `formId` matches (never an error, whatever the id), and when no
record carries that form id — in particular when no form with that id
exists at all — it returns the empty list rather than a not-found
failure. -/
theorem listByForm_never_notFound
    (db : DB) (formId : String)
    (h : ∀ r ∈ db.sourceRecords, ¬r.formId = formId) :
    getSourceRecordsByFormId db formId
        = Except.ok (db.sourceRecords.filter (fun r => r.formId == formId)) ∧
    getSourceRecordsByFormId db formId = Except.ok [] := by
  refine ⟨rfl, ?_⟩
  have hfilter : db.sourceRecords.filter (fun r => r.formId == formId) = [] := by
    rw [List.filter_eq_nil_iff]
    intro r hr
    simp [h r hr]
  simp [getSourceRecordsByFormId, hfilter]

/-- Witness for C8: a store holding one record of form `G` and no form
`F` at all; listing by `F` yields the empty list, not an error. -/
theorem listByForm_never_notFound_witness :
    getSourceRecordsByFormId ⟨[], [⟨"r1", "G", [⟨"Name?", "Jo"⟩]⟩]⟩ "F"
        = Except.ok (List.filter (fun r => r.formId == "F") [⟨"r1", "G", [⟨"Name?", "Jo"⟩]⟩]) ∧
    getSourceRecordsByFormId ⟨[], [⟨"r1", "G", [⟨"Name?", "Jo"⟩]⟩]⟩ "F" = Except.ok [] :=
  listByForm_never_notFound ⟨[], [⟨"r1", "G", [⟨"Name?", "Jo"⟩]⟩]⟩ "F" (by decide)

/-- Claim C9 — the required-field test is the raw truthiness check
`!body.sourceData[fieldId]`: it accepts exactly the present entries whose
value is not the literal empty string (no trimming — a whitespace-only
answer such as `" "` passes), and fails exactly on an absent entry or the
exact empty string. -/
theorem missingOrEmpty_no_normalization
    (a : List (String × String)) (fieldId : String) :
    (missingOrEmpty a fieldId = false ↔
      ∃ s, lookupEntry a fieldId = some s ∧ s ≠ "") ∧
    (missingOrEmpty a fieldId = true ↔
      lookupEntry a fieldId = none ∨ lookupEntry a fieldId = some "") ∧
    missingOrEmpty [(fieldId, " ")] fieldId = false := by
  refine ⟨?_, ?_, ?_⟩
  · cases hl : lookupEntry a fieldId with
    | none => simp [missingOrEmpty, hl]
    | some s =>
      by_cases hs : s = ""
      · subst hs
        simp [missingOrEmpty, hl]
      · simp [missingOrEmpty, hl, hs]
  · cases hl : lookupEntry a fieldId with
    | none => simp [missingOrEmpty, hl]
    | some s =>
      by_cases hs : s = ""
      · subst hs
        simp [missingOrEmpty, hl]
      · simp [missingOrEmpty, hl, hs]
  · simp [missingOrEmpty, lookupEntry]

/-- Claim C10 — an empty-string answer for a non-required field is kept:
it does not trip the required-field loop, and it is persisted as the pair
`(question, "")`, counting toward the emitted row count. -/
theorem empty_answer_for_optional_field_persisted
    (formFields : FormFields) (a : List (String × String))
    (fieldId : String) (field : FieldDef)
    (hfield : lookupEntry formFields fieldId = some field)
    (_hreq : field.required = false)
    (hmem : (fieldId, "") ∈ a)
    (hok : ∀ p ∈ formFields, p.2.required = true → missingOrEmpty a p.1 = false)
    (hk : ∀ p ∈ a, (lookupEntry formFields p.1).isSome) :
    validateRequired formFields a = none ∧
    ∃ rows, buildSourceData formFields a = some rows ∧
      rows.length = a.length ∧ (⟨field.question, ""⟩ : SourceData) ∈ rows := by
  refine ⟨validateRequired_eq_none_of_forall formFields a hok,
    a.map (fun p => ⟨questionOf formFields p.1, p.2⟩),
    buildSourceData_eq_map formFields a hk, by simp, ?_⟩
  have hrow : (⟨questionOf formFields fieldId, ""⟩ : SourceData)
      ∈ a.map (fun p => (⟨questionOf formFields p.1, p.2⟩ : SourceData)) :=
    List.mem_map_of_mem (fun p => (⟨questionOf formFields p.1, p.2⟩ : SourceData)) hmem
  have hq : questionOf formFields fieldId = field.question := by
    simp [questionOf, hfield]
  rw [hq] at hrow
  exact hrow

/-- Witness for C10: f2 ("Age?") is optional and answered `""`; the pair
`("Age?", "")` is persisted and counted. -/
theorem empty_answer_for_optional_field_persisted_witness :
    validateRequired [("f1", ⟨"text", "Name?", true⟩), ("f2", ⟨"text", "Age?", false⟩)]
        [("f1", "Jo"), ("f2", "")] = none ∧
    ∃ rows,
      buildSourceData [("f1", ⟨"text", "Name?", true⟩), ("f2", ⟨"text", "Age?", false⟩)]
          [("f1", "Jo"), ("f2", "")] = some rows ∧
      rows.length = [("f1", "Jo"), ("f2", "")].length ∧
      (⟨"Age?", ""⟩ : SourceData) ∈ rows :=
  empty_answer_for_optional_field_persisted
    [("f1", ⟨"text", "Name?", true⟩), ("f2", ⟨"text", "Age?", false⟩)]
    [("f1", "Jo"), ("f2", "")] "f2" ⟨"text", "Age?", false⟩
    (by decide) (by decide) (by decide) (by decide) (by decide)
